import Mathlib

/-!
Verification of the clinical evaluator of the anesthesia-machine safety
simulation (src/anesthesia_device_gui/anesthesia_machine_UI.py, function
evaluate_anesthesia_realistic, lines 13-132).

Embedding choices:
* Python floats are modelled as rationals (ℚ); the spec treats the inputs
  as real numbers and every threshold in the source is a short decimal,
  written here as an exact fraction (0.3 = 3/10, 0.5 = 1/2, 0.8 = 4/5,
  1.2 = 6/5).
* The human-readable message strings are modelled by the inductive type
  Msg, one constructor per distinct append site in the source; messages
  whose text interpolates a computed value carry that value as a rational
  payload (the source formats it with one decimal, a presentation detail).
* The Python dict returned by the function becomes the structure
  EvalResult; the computed sub-dict, empty exactly when validation fails,
  becomes an Option.
* Python round(x, 2) is modelled by round2 below.  CPython rounds
  half-to-even on the binary float; no threshold or concrete input in the
  development lands on a half-way point at two decimals, so round-half-up
  on ℚ agrees with it everywhere it is used here.
-/

/-- The three values of the result status field (source line 124). -/
inductive Status where
  | ALARM
  | WARNING
  | RUNNING
deriving DecidableEq, Repr

/-- One constructor per distinct alarm/warning message append site in
evaluate_anesthesia_realistic.  Payload rationals stand for the values the
source interpolates into the f-string. -/
inductive Msg where
  | invalidWeight
  | invalidFio2
  | invalidFreshGasFlow
  | invalidAgentConcentration
  | invalidRespiratoryRate
  | invalidTidalVolume
  | fio2NotPhysiological
  | hypoxicMixtureRisk
  | lowFio2Band
  | hypoxicGuardInhibit
  | agentWithoutCarrierFlow
  | fgfTooLowForAgent
  | slowWashIn
  | highFGF
  | agentTooHigh (agent : String) (limit : Option ℚ)
  | agentHigh (agent : String) (limit : Option ℚ)
  | vtTooLow (vt : ℚ)
  | vtBelowRecommended (vt low high : ℚ)
  | vtTooHigh (vt : ℚ)
  | vtAboveRecommended (vt low high : ℚ)
  | apneaBradypnea
  | lowRespRate
  | highRespRate
  | lowMinuteVentilation (mv : ℚ)
  | borderlineMV (mv : ℚ)
  | highAirwayPressure
  | elevatedAirwayPressure
  | possibleDisconnectionLeak
deriving DecidableEq, Repr

/-- The computed sub-dict (source lines 126-130): MV_Lmin and VT_mLkg are
rounded to two decimals, VT_target_mLkg is the display pair low-high. -/
structure Computed where
  MV_Lmin : ℚ
  VT_mLkg : ℚ
  VT_target_mLkg : ℚ × ℚ
deriving DecidableEq, Repr

/-- The dict returned by evaluate_anesthesia_realistic (lines 44 and 132).
computed = none models the empty dict of the validation short-circuit. -/
structure EvalResult where
  status : Status
  alarms : List Msg
  warnings : List Msg
  computed : Option Computed
deriving DecidableEq, Repr

/-- Floor of a rational as an integer (the denominator of a ℚ is
positive, so flooring numerator-by-denominator division is ⌊x⌋). -/
def ratFloor (x : ℚ) : ℤ := Int.fdiv x.num x.den

/-- Round-half-up to the nearest integer. -/
def ratRound (x : ℚ) : ℤ := ratFloor (x + 1/2)

/-- Python round(x, 2): scale by 100, round to the nearest integer,
scale back.  (See the header note on the half-way tie direction.) -/
def round2 (x : ℚ) : ℚ := (ratRound (x * 100) : ℚ) / 100

/-- Validation stage, source lines 29-40: the six independent checks,
each appending its own message; the resulting list keeps the source
order weight, FiO2, FGF, agent concentration, RR, VT. -/
def validationAlarms (weight_kg fio2 fresh_gas_flow_lpm agent_percent
    resp_rate_bpm tidal_volume_ml : ℚ) : List Msg :=
  (if weight_kg ≤ 0 then [Msg.invalidWeight] else []) ++
  (if fio2 < 0 ∨ fio2 > 100 then [Msg.invalidFio2] else []) ++
  (if fresh_gas_flow_lpm < 0 then [Msg.invalidFreshGasFlow] else []) ++
  (if agent_percent < 0 then [Msg.invalidAgentConcentration] else []) ++
  (if resp_rate_bpm < 0 then [Msg.invalidRespiratoryRate] else []) ++
  (if tidal_volume_ml < 0 then [Msg.invalidTidalVolume] else [])

/-- Oxygen band rule (lines 47-52), an if/elif/elif chain; first
component the alarms it appends, second the warnings. -/
def oxygenChain (fio2 : ℚ) : List Msg × List Msg :=
  if fio2 < 21 then ([Msg.fio2NotPhysiological], [])
  else if fio2 < 30 then ([Msg.hypoxicMixtureRisk], [])
  else if fio2 < 40 then ([], [Msg.lowFio2Band])
  else ([], [])

/-- Hypoxic-guard rule (lines 54-55), independent of the band chain. -/
def guardAlarm (hypoxic_guard_enabled : Bool) (fio2 : ℚ) : List Msg :=
  if hypoxic_guard_enabled ∧ fio2 < 25 then [Msg.hypoxicGuardInhibit] else []

/-- FGF/agent consistency chain (lines 58-61). -/
def fgfAgentChain (fresh_gas_flow_lpm agent_percent : ℚ) : List Msg :=
  if fresh_gas_flow_lpm = 0 ∧ agent_percent > 0 then [Msg.agentWithoutCarrierFlow]
  else if fresh_gas_flow_lpm ≤ 3/10 ∧ agent_percent > 0 then [Msg.fgfTooLowForAgent]
  else []

/-- Slow wash-in warning (lines 63-64). -/
def slowWashInWarning (fresh_gas_flow_lpm : ℚ) : List Msg :=
  if fresh_gas_flow_lpm < 1/2 then [Msg.slowWashIn] else []

/-- High-FGF warning (lines 65-66). -/
def highFGFWarning (fresh_gas_flow_lpm : ℚ) : List Msg :=
  if fresh_gas_flow_lpm > 10 then [Msg.highFGF] else []

/-- The per-agent alarm ceiling dict (line 69); none for a key absent
from the dict. -/
def agent_alarm_max : String → Option ℚ
  | "Sevoflurane" => some 4
  | "Isoflurane" => some 3
  | "Desflurane" => some 10
  | _ => none

/-- The per-agent warn-high dict (line 70). -/
def agent_warn_high : String → Option ℚ
  | "Sevoflurane" => some 3
  | "Isoflurane" => some (5/2)
  | "Desflurane" => some 8
  | _ => none

/-- Agent concentration chain (lines 72-75): dict lookup with default
5.0 resp. 3.0; the message interpolates the lookup without default. -/
def agentChain (agent : String) (agent_percent : ℚ) : List Msg × List Msg :=
  if agent_percent > (agent_alarm_max agent).getD 5 then
    ([Msg.agentTooHigh agent (agent_alarm_max agent)], [])
  else if agent_percent > (agent_warn_high agent).getD 3 then
    ([], [Msg.agentHigh agent (agent_warn_high agent)])
  else ([], [])

/-- VT target range and MV thresholds by patient type (lines 82-87):
(vt_rec_low, vt_rec_high, mv_alarm_low, mv_warn_low). -/
def ventParams (patient_type : String) : ℚ × ℚ × ℚ × ℚ :=
  if patient_type = "adult" then (6, 8, 3, 4) else (5, 8, 4/5, 6/5)

/-- VT lower chain (lines 90-93). -/
def vtLowChain (vt_ml_per_kg vt_rec_low vt_rec_high : ℚ) : List Msg × List Msg :=
  if vt_ml_per_kg < 4 then ([Msg.vtTooLow vt_ml_per_kg], [])
  else if vt_ml_per_kg < vt_rec_low then
    ([], [Msg.vtBelowRecommended vt_ml_per_kg vt_rec_low vt_rec_high])
  else ([], [])

/-- VT upper chain (lines 95-98). -/
def vtHighChain (vt_ml_per_kg vt_rec_low vt_rec_high : ℚ) : List Msg × List Msg :=
  if vt_ml_per_kg > 10 then ([Msg.vtTooHigh vt_ml_per_kg], [])
  else if vt_ml_per_kg > vt_rec_high then
    ([], [Msg.vtAboveRecommended vt_ml_per_kg vt_rec_low vt_rec_high])
  else ([], [])

/-- Respiratory-rate chain (lines 101-106). -/
def rrChain (resp_rate_bpm : ℚ) : List Msg × List Msg :=
  if resp_rate_bpm < 6 then ([Msg.apneaBradypnea], [])
  else if resp_rate_bpm < 8 then ([], [Msg.lowRespRate])
  else if resp_rate_bpm > 35 then ([], [Msg.highRespRate])
  else ([], [])

/-- Minute-ventilation chain (lines 109-112). -/
def mvChain (mv_lpm mv_alarm_low mv_warn_low : ℚ) : List Msg × List Msg :=
  if mv_lpm < mv_alarm_low then ([Msg.lowMinuteVentilation mv_lpm], [])
  else if mv_lpm < mv_warn_low then ([], [Msg.borderlineMV mv_lpm])
  else ([], [])

/-- Airway-pressure chain (lines 115-118). -/
def pressureChain (airway_pressure_cmh2o : ℚ) : List Msg × List Msg :=
  if airway_pressure_cmh2o > 40 then ([Msg.highAirwayPressure], [])
  else if airway_pressure_cmh2o > 30 then ([], [Msg.elevatedAirwayPressure])
  else ([], [])

/-- Disconnection/leak compound rule (lines 121-122). -/
def disconnectionAlarm (airway_pressure_cmh2o mv_lpm mv_warn_low : ℚ) : List Msg :=
  if airway_pressure_cmh2o < 5 ∧ mv_lpm < mv_warn_low then
    [Msg.possibleDisconnectionLeak] else []

/-- The clinical alarms list of lines 47-122 in source append order. -/
def clinicalAlarms (patient_type : String) (weight_kg fio2 fresh_gas_flow_lpm : ℚ)
    (agent : String) (agent_percent airway_pressure_cmh2o tidal_volume_ml
    resp_rate_bpm : ℚ) (hypoxic_guard_enabled : Bool) : List Msg :=
  let mv_lpm := tidal_volume_ml * resp_rate_bpm / 1000
  let vt_ml_per_kg := if weight_kg > 0 then tidal_volume_ml / weight_kg else 0
  let p := ventParams patient_type
  (oxygenChain fio2).1 ++
  guardAlarm hypoxic_guard_enabled fio2 ++
  fgfAgentChain fresh_gas_flow_lpm agent_percent ++
  (agentChain agent agent_percent).1 ++
  (vtLowChain vt_ml_per_kg p.1 p.2.1).1 ++
  (vtHighChain vt_ml_per_kg p.1 p.2.1).1 ++
  (rrChain resp_rate_bpm).1 ++
  (mvChain mv_lpm p.2.2.1 p.2.2.2).1 ++
  (pressureChain airway_pressure_cmh2o).1 ++
  disconnectionAlarm airway_pressure_cmh2o mv_lpm p.2.2.2

/-- The clinical warnings list of lines 47-118 in source append order. -/
def clinicalWarnings (patient_type : String) (weight_kg fio2 fresh_gas_flow_lpm : ℚ)
    (agent : String) (agent_percent airway_pressure_cmh2o tidal_volume_ml
    resp_rate_bpm : ℚ) : List Msg :=
  let mv_lpm := tidal_volume_ml * resp_rate_bpm / 1000
  let vt_ml_per_kg := if weight_kg > 0 then tidal_volume_ml / weight_kg else 0
  let p := ventParams patient_type
  (oxygenChain fio2).2 ++
  slowWashInWarning fresh_gas_flow_lpm ++
  highFGFWarning fresh_gas_flow_lpm ++
  (agentChain agent agent_percent).2 ++
  (vtLowChain vt_ml_per_kg p.1 p.2.1).2 ++
  (vtHighChain vt_ml_per_kg p.1 p.2.1).2 ++
  (rrChain resp_rate_bpm).2 ++
  (mvChain mv_lpm p.2.2.1 p.2.2.2).2 ++
  (pressureChain airway_pressure_cmh2o).2

/-- The computed dict of lines 77-79 and 126-130. -/
def computedValues (patient_type : String) (weight_kg tidal_volume_ml
    resp_rate_bpm : ℚ) : Computed :=
  let mv_lpm := tidal_volume_ml * resp_rate_bpm / 1000
  let vt_ml_per_kg := if weight_kg > 0 then tidal_volume_ml / weight_kg else 0
  let p := ventParams patient_type
  { MV_Lmin := round2 mv_lpm
    VT_mLkg := round2 vt_ml_per_kg
    VT_target_mLkg := (p.1, p.2.1) }

/-- Lines 46-132: the clinical branch taken once validation passed. -/
def clinicalResult (patient_type : String) (weight_kg fio2 fresh_gas_flow_lpm : ℚ)
    (agent : String) (agent_percent airway_pressure_cmh2o tidal_volume_ml
    resp_rate_bpm : ℚ) (hypoxic_guard_enabled : Bool) : EvalResult :=
  let alarms := clinicalAlarms patient_type weight_kg fio2 fresh_gas_flow_lpm
    agent agent_percent airway_pressure_cmh2o tidal_volume_ml resp_rate_bpm
    hypoxic_guard_enabled
  let warnings := clinicalWarnings patient_type weight_kg fio2 fresh_gas_flow_lpm
    agent agent_percent airway_pressure_cmh2o tidal_volume_ml resp_rate_bpm
  { status := if alarms ≠ [] then Status.ALARM
      else if warnings ≠ [] then Status.WARNING else Status.RUNNING
    alarms := alarms
    warnings := warnings
    computed := some (computedValues patient_type weight_kg tidal_volume_ml
      resp_rate_bpm) }

/-- evaluate_anesthesia_realistic, source lines 13-132. -/
def evaluate_anesthesia_realistic (patient_type : String)
    (weight_kg fio2 fresh_gas_flow_lpm : ℚ) (agent : String)
    (agent_percent airway_pressure_cmh2o tidal_volume_ml resp_rate_bpm : ℚ)
    (hypoxic_guard_enabled : Bool) : EvalResult :=
  let va := validationAlarms weight_kg fio2 fresh_gas_flow_lpm agent_percent
    resp_rate_bpm tidal_volume_ml
  if va ≠ [] then
    { status := Status.ALARM, alarms := va, warnings := [], computed := none }
  else
    clinicalResult patient_type weight_kg fio2 fresh_gas_flow_lpm agent
      agent_percent airway_pressure_cmh2o tidal_volume_ml resp_rate_bpm
      hypoxic_guard_enabled

/-- The conjunction of the six validity checks of source lines 29-40
(each conjunct is the negation of the corresponding alarm condition). -/
@[reducible] def validInput (weight_kg fio2 fresh_gas_flow_lpm agent_percent
    resp_rate_bpm tidal_volume_ml : ℚ) : Prop :=
  ¬ weight_kg ≤ 0 ∧ ¬ (fio2 < 0 ∨ fio2 > 100) ∧ ¬ fresh_gas_flow_lpm < 0 ∧
  ¬ agent_percent < 0 ∧ ¬ resp_rate_bpm < 0 ∧ ¬ tidal_volume_ml < 0

lemma validationAlarms_eq_nil_iff {w f fgf ap rr tv : ℚ} :
    validationAlarms w f fgf ap rr tv = [] ↔ validInput w f fgf ap rr tv := by
  unfold validationAlarms validInput
  split_ifs <;> simp_all

lemma evaluate_of_valid (pt : String) {w f fgf : ℚ} (ag : String)
    {ap pp tv rr : ℚ} (g : Bool) (h : validInput w f fgf ap rr tv) :
    evaluate_anesthesia_realistic pt w f fgf ag ap pp tv rr g =
      clinicalResult pt w f fgf ag ap pp tv rr g := by
  unfold evaluate_anesthesia_realistic
  rw [if_neg]
  simp [validationAlarms_eq_nil_iff, h]

lemma evaluate_of_invalid (pt : String) {w f fgf : ℚ} (ag : String)
    {ap pp tv rr : ℚ} (g : Bool) (h : ¬ validInput w f fgf ap rr tv) :
    evaluate_anesthesia_realistic pt w f fgf ag ap pp tv rr g =
      { status := Status.ALARM,
        alarms := validationAlarms w f fgf ap rr tv,
        warnings := [], computed := none } := by
  unfold evaluate_anesthesia_realistic
  rw [if_pos]
  simpa [validationAlarms_eq_nil_iff] using h

lemma mem_ite_singleton {m a : Msg} {c : Prop} [Decidable c] :
    m ∈ (if c then [a] else []) ↔ c ∧ m = a := by
  split <;> simp_all

lemma mem_validationAlarms {m : Msg} {w f fgf ap rr tv : ℚ} :
    m ∈ validationAlarms w f fgf ap rr tv ↔
      (w ≤ 0 ∧ m = Msg.invalidWeight) ∨
      ((f < 0 ∨ f > 100) ∧ m = Msg.invalidFio2) ∨
      (fgf < 0 ∧ m = Msg.invalidFreshGasFlow) ∨
      (ap < 0 ∧ m = Msg.invalidAgentConcentration) ∨
      (rr < 0 ∧ m = Msg.invalidRespiratoryRate) ∨
      (tv < 0 ∧ m = Msg.invalidTidalVolume) := by
  simp [validationAlarms, List.mem_append, mem_ite_singleton]

lemma validationAlarms_nodup {w f fgf ap rr tv : ℚ} :
    (validationAlarms w f fgf ap rr tv).Nodup := by
  unfold validationAlarms
  split_ifs <;> decide

lemma mem_oxygenChain_fst {m : Msg} {f : ℚ} :
    m ∈ (oxygenChain f).1 ↔
      (f < 21 ∧ m = Msg.fio2NotPhysiological) ∨
      (¬ f < 21 ∧ f < 30 ∧ m = Msg.hypoxicMixtureRisk) := by
  unfold oxygenChain
  split_ifs <;> simp_all

lemma mem_oxygenChain_snd {m : Msg} {f : ℚ} :
    m ∈ (oxygenChain f).2 ↔
      ¬ f < 21 ∧ ¬ f < 30 ∧ f < 40 ∧ m = Msg.lowFio2Band := by
  unfold oxygenChain
  split_ifs <;> simp_all

lemma mem_guardAlarm {m : Msg} {g : Bool} {f : ℚ} :
    m ∈ guardAlarm g f ↔ (g = true ∧ f < 25) ∧ m = Msg.hypoxicGuardInhibit := by
  unfold guardAlarm
  split_ifs <;> simp_all

lemma mem_fgfAgentChain {m : Msg} {fgf ap : ℚ} :
    m ∈ fgfAgentChain fgf ap ↔
      ((fgf = 0 ∧ ap > 0) ∧ m = Msg.agentWithoutCarrierFlow) ∨
      (¬ (fgf = 0 ∧ ap > 0) ∧ (fgf ≤ 3/10 ∧ ap > 0) ∧ m = Msg.fgfTooLowForAgent) := by
  unfold fgfAgentChain
  split_ifs <;> simp_all

lemma mem_slowWashInWarning {m : Msg} {fgf : ℚ} :
    m ∈ slowWashInWarning fgf ↔ fgf < 1/2 ∧ m = Msg.slowWashIn := by
  unfold slowWashInWarning
  split_ifs <;> simp_all

lemma mem_highFGFWarning {m : Msg} {fgf : ℚ} :
    m ∈ highFGFWarning fgf ↔ fgf > 10 ∧ m = Msg.highFGF := by
  unfold highFGFWarning
  split_ifs <;> simp_all

lemma mem_agentChain_fst {m : Msg} {ag : String} {ap : ℚ} :
    m ∈ (agentChain ag ap).1 ↔
      ap > (agent_alarm_max ag).getD 5 ∧
        m = Msg.agentTooHigh ag (agent_alarm_max ag) := by
  unfold agentChain
  split_ifs <;> simp_all

lemma mem_agentChain_snd {m : Msg} {ag : String} {ap : ℚ} :
    m ∈ (agentChain ag ap).2 ↔
      ¬ ap > (agent_alarm_max ag).getD 5 ∧ ap > (agent_warn_high ag).getD 3 ∧
        m = Msg.agentHigh ag (agent_warn_high ag) := by
  unfold agentChain
  split_ifs <;> simp_all

lemma mem_vtLowChain_fst {m : Msg} {v lo hi : ℚ} :
    m ∈ (vtLowChain v lo hi).1 ↔ v < 4 ∧ m = Msg.vtTooLow v := by
  unfold vtLowChain
  split_ifs <;> simp_all

lemma mem_vtLowChain_snd {m : Msg} {v lo hi : ℚ} :
    m ∈ (vtLowChain v lo hi).2 ↔
      ¬ v < 4 ∧ v < lo ∧ m = Msg.vtBelowRecommended v lo hi := by
  unfold vtLowChain
  split_ifs <;> simp_all

lemma mem_vtHighChain_fst {m : Msg} {v lo hi : ℚ} :
    m ∈ (vtHighChain v lo hi).1 ↔ v > 10 ∧ m = Msg.vtTooHigh v := by
  unfold vtHighChain
  split_ifs <;> simp_all

lemma mem_vtHighChain_snd {m : Msg} {v lo hi : ℚ} :
    m ∈ (vtHighChain v lo hi).2 ↔
      ¬ v > 10 ∧ v > hi ∧ m = Msg.vtAboveRecommended v lo hi := by
  unfold vtHighChain
  split_ifs <;> simp_all

lemma mem_rrChain_fst {m : Msg} {r : ℚ} :
    m ∈ (rrChain r).1 ↔ r < 6 ∧ m = Msg.apneaBradypnea := by
  unfold rrChain
  split_ifs <;> simp_all

lemma mem_rrChain_snd {m : Msg} {r : ℚ} :
    m ∈ (rrChain r).2 ↔
      (¬ r < 6 ∧ r < 8 ∧ m = Msg.lowRespRate) ∨
      (¬ r < 6 ∧ ¬ r < 8 ∧ r > 35 ∧ m = Msg.highRespRate) := by
  unfold rrChain
  split_ifs <;> simp_all

lemma mem_mvChain_fst {m : Msg} {mv alo wlo : ℚ} :
    m ∈ (mvChain mv alo wlo).1 ↔ mv < alo ∧ m = Msg.lowMinuteVentilation mv := by
  unfold mvChain
  split_ifs <;> simp_all

lemma mem_mvChain_snd {m : Msg} {mv alo wlo : ℚ} :
    m ∈ (mvChain mv alo wlo).2 ↔
      ¬ mv < alo ∧ mv < wlo ∧ m = Msg.borderlineMV mv := by
  unfold mvChain
  split_ifs <;> simp_all

lemma mem_pressureChain_fst {m : Msg} {p : ℚ} :
    m ∈ (pressureChain p).1 ↔ p > 40 ∧ m = Msg.highAirwayPressure := by
  unfold pressureChain
  split_ifs <;> simp_all

lemma mem_pressureChain_snd {m : Msg} {p : ℚ} :
    m ∈ (pressureChain p).2 ↔
      ¬ p > 40 ∧ p > 30 ∧ m = Msg.elevatedAirwayPressure := by
  unfold pressureChain
  split_ifs <;> simp_all

lemma mem_disconnectionAlarm {m : Msg} {p mv wlo : ℚ} :
    m ∈ disconnectionAlarm p mv wlo ↔
      (p < 5 ∧ mv < wlo) ∧ m = Msg.possibleDisconnectionLeak := by
  unfold disconnectionAlarm
  split_ifs <;> simp_all

lemma mem_clinicalAlarms {m : Msg} {pt ag : String} {w f fgf ap pp tv rr : ℚ}
    {g : Bool} :
    m ∈ clinicalAlarms pt w f fgf ag ap pp tv rr g ↔
      m ∈ (oxygenChain f).1 ∨
      m ∈ guardAlarm g f ∨
      m ∈ fgfAgentChain fgf ap ∨
      m ∈ (agentChain ag ap).1 ∨
      m ∈ (vtLowChain (if w > 0 then tv / w else 0) (ventParams pt).1
            (ventParams pt).2.1).1 ∨
      m ∈ (vtHighChain (if w > 0 then tv / w else 0) (ventParams pt).1
            (ventParams pt).2.1).1 ∨
      m ∈ (rrChain rr).1 ∨
      m ∈ (mvChain (tv * rr / 1000) (ventParams pt).2.2.1 (ventParams pt).2.2.2).1 ∨
      m ∈ (pressureChain pp).1 ∨
      m ∈ disconnectionAlarm pp (tv * rr / 1000) (ventParams pt).2.2.2 := by
  unfold clinicalAlarms
  simp [List.mem_append]

lemma mem_clinicalWarnings {m : Msg} {pt ag : String} {w f fgf ap pp tv rr : ℚ} :
    m ∈ clinicalWarnings pt w f fgf ag ap pp tv rr ↔
      m ∈ (oxygenChain f).2 ∨
      m ∈ slowWashInWarning fgf ∨
      m ∈ highFGFWarning fgf ∨
      m ∈ (agentChain ag ap).2 ∨
      m ∈ (vtLowChain (if w > 0 then tv / w else 0) (ventParams pt).1
            (ventParams pt).2.1).2 ∨
      m ∈ (vtHighChain (if w > 0 then tv / w else 0) (ventParams pt).1
            (ventParams pt).2.1).2 ∨
      m ∈ (rrChain rr).2 ∨
      m ∈ (mvChain (tv * rr / 1000) (ventParams pt).2.2.1 (ventParams pt).2.2.2).2 ∨
      m ∈ (pressureChain pp).2 := by
  unfold clinicalWarnings
  simp [List.mem_append]

lemma evaluate_status_ite (pt : String) (w f fgf : ℚ) (ag : String)
    (ap pp tv rr : ℚ) (g : Bool) :
    (evaluate_anesthesia_realistic pt w f fgf ag ap pp tv rr g).status =
      (if (evaluate_anesthesia_realistic pt w f fgf ag ap pp tv rr g).alarms ≠ [] then
        Status.ALARM
      else if (evaluate_anesthesia_realistic pt w f fgf ag ap pp tv rr g).warnings ≠ [] then
        Status.WARNING
      else Status.RUNNING) := by
  by_cases h : validInput w f fgf ap rr tv
  · rw [evaluate_of_valid pt ag g h]
    rfl
  · rw [evaluate_of_invalid pt ag g h]
    have hne : validationAlarms w f fgf ap rr tv ≠ [] := by
      simpa [validationAlarms_eq_nil_iff] using h
    simp [hne]

lemma clinicalResult_alarms (pt : String) (w f fgf : ℚ) (ag : String)
    (ap pp tv rr : ℚ) (g : Bool) :
    (clinicalResult pt w f fgf ag ap pp tv rr g).alarms =
      clinicalAlarms pt w f fgf ag ap pp tv rr g := rfl

lemma clinicalResult_warnings (pt : String) (w f fgf : ℚ) (ag : String)
    (ap pp tv rr : ℚ) (g : Bool) :
    (clinicalResult pt w f fgf ag ap pp tv rr g).warnings =
      clinicalWarnings pt w f fgf ag ap pp tv rr := rfl

lemma clinicalResult_computed (pt : String) (w f fgf : ℚ) (ag : String)
    (ap pp tv rr : ℚ) (g : Bool) :
    (clinicalResult pt w f fgf ag ap pp tv rr g).computed =
      some (computedValues pt w tv rr) := rfl

/-- C1: for every input, the status of the returned result is ALARM when
the alarms list is non-empty, else WARNING when the warnings list is
non-empty, else RUNNING — exactly one of the three values. -/
theorem evaluate_status_precedence (pt : String) (w f fgf : ℚ) (ag : String)
    (ap pp tv rr : ℚ) (g : Bool) :
    (evaluate_anesthesia_realistic pt w f fgf ag ap pp tv rr g).status =
      (if (evaluate_anesthesia_realistic pt w f fgf ag ap pp tv rr g).alarms ≠ [] then
        Status.ALARM
      else if (evaluate_anesthesia_realistic pt w f fgf ag ap pp tv rr g).warnings ≠ [] then
        Status.WARNING
      else Status.RUNNING) :=
  evaluate_status_ite pt w f fgf ag ap pp tv rr g

/-- C2: any input violating at least one of the six validity checks makes
the evaluator return immediately with status ALARM, warnings and computed
empty, a non-empty duplicate-free alarms list containing exactly the
message of each violated check, and no clinical rule message. -/
theorem validation_gate_shortcircuit (pt : String) {w f fgf : ℚ} (ag : String)
    {ap : ℚ} (pp : ℚ) {tv rr : ℚ} (g : Bool)
    (h : ¬ validInput w f fgf ap rr tv) :
    (evaluate_anesthesia_realistic pt w f fgf ag ap pp tv rr g).status = Status.ALARM ∧
    (evaluate_anesthesia_realistic pt w f fgf ag ap pp tv rr g).warnings = [] ∧
    (evaluate_anesthesia_realistic pt w f fgf ag ap pp tv rr g).computed = none ∧
    (evaluate_anesthesia_realistic pt w f fgf ag ap pp tv rr g).alarms ≠ [] ∧
    (evaluate_anesthesia_realistic pt w f fgf ag ap pp tv rr g).alarms.Nodup ∧
    (Msg.invalidWeight ∈ (evaluate_anesthesia_realistic pt w f fgf ag ap pp tv rr g).alarms
      ↔ w ≤ 0) ∧
    (Msg.invalidFio2 ∈ (evaluate_anesthesia_realistic pt w f fgf ag ap pp tv rr g).alarms
      ↔ (f < 0 ∨ f > 100)) ∧
    (Msg.invalidFreshGasFlow ∈ (evaluate_anesthesia_realistic pt w f fgf ag ap pp tv rr g).alarms
      ↔ fgf < 0) ∧
    (Msg.invalidAgentConcentration ∈ (evaluate_anesthesia_realistic pt w f fgf ag ap pp tv rr g).alarms
      ↔ ap < 0) ∧
    (Msg.invalidRespiratoryRate ∈ (evaluate_anesthesia_realistic pt w f fgf ag ap pp tv rr g).alarms
      ↔ rr < 0) ∧
    (Msg.invalidTidalVolume ∈ (evaluate_anesthesia_realistic pt w f fgf ag ap pp tv rr g).alarms
      ↔ tv < 0) ∧
    (∀ m ∈ (evaluate_anesthesia_realistic pt w f fgf ag ap pp tv rr g).alarms,
      m = Msg.invalidWeight ∨ m = Msg.invalidFio2 ∨ m = Msg.invalidFreshGasFlow ∨
      m = Msg.invalidAgentConcentration ∨ m = Msg.invalidRespiratoryRate ∨
      m = Msg.invalidTidalVolume) := by
  rw [evaluate_of_invalid pt ag g h]
  refine ⟨rfl, rfl, rfl, ?_, validationAlarms_nodup, ?_, ?_, ?_, ?_, ?_, ?_, ?_⟩
  · simpa [validationAlarms_eq_nil_iff] using h
  · simp [mem_validationAlarms]
  · simp [mem_validationAlarms]
  · simp [mem_validationAlarms]
  · simp [mem_validationAlarms]
  · simp [mem_validationAlarms]
  · simp [mem_validationAlarms]
  · intro m hm
    rcases mem_validationAlarms.mp hm with ⟨-, h'⟩ | ⟨-, h'⟩ | ⟨-, h'⟩ | ⟨-, h'⟩ | ⟨-, h'⟩ | ⟨-, h'⟩ <;>
      simp [h']

theorem validation_gate_shortcircuit_witness :
    ¬ validInput (-1) 150 1 1 10 500 ∧
    (evaluate_anesthesia_realistic "adult" (-1) 150 1 "Sevoflurane" 1 18 500 10 true).computed
      = none ∧
    Msg.invalidWeight ∈
      (evaluate_anesthesia_realistic "adult" (-1) 150 1 "Sevoflurane" 1 18 500 10 true).alarms ∧
    Msg.invalidFio2 ∈
      (evaluate_anesthesia_realistic "adult" (-1) 150 1 "Sevoflurane" 1 18 500 10 true).alarms := by
  have h : ¬ validInput (-1 : ℚ) 150 1 1 10 500 := by with_unfolding_all decide
  have hc := validation_gate_shortcircuit "adult" "Sevoflurane" 18 true h
  exact ⟨h, hc.2.2.1, hc.2.2.2.2.2.1.mpr (by norm_num),
    hc.2.2.2.2.2.2.1.mpr (Or.inr (by norm_num))⟩

/-- C6: on the default parameters (adult, 70 kg, FiO2 50, FGF 4,
Sevoflurane 2 percent, pressure 18, VT 500, RR 12, guard on) the evaluator
returns RUNNING with no alarms or warnings and computed values
MV_Lmin = 6.0, VT_mLkg = 7.14 (= 357/50) and VT target 6.0-8.0. -/
theorem scenario_defaults_running :
    evaluate_anesthesia_realistic "adult" 70 50 4 "Sevoflurane" 2 18 500 12 true
      = { status := Status.RUNNING, alarms := [], warnings := [],
          computed := some { MV_Lmin := 6, VT_mLkg := 357/50,
                             VT_target_mLkg := (6, 8) } } := by
  with_unfolding_all decide

/-- C3: after validation, at most one of the three FiO2-band messages is
added (below 21 the invalid-mixture alarm, else below 30 the
hypoxic-mixture-risk alarm, else below 40 a warning), and the
hypoxic-guard alarm fires exactly when the guard is enabled and FiO2 < 25,
independently of the band messages. -/
theorem oxygen_rule_bands_and_guard (pt : String) {w f fgf : ℚ} (ag : String)
    {ap : ℚ} (pp : ℚ) {tv rr : ℚ} (g : Bool)
    (h : validInput w f fgf ap rr tv) :
    (Msg.fio2NotPhysiological ∈
        (evaluate_anesthesia_realistic pt w f fgf ag ap pp tv rr g).alarms ↔ f < 21) ∧
    (Msg.hypoxicMixtureRisk ∈
        (evaluate_anesthesia_realistic pt w f fgf ag ap pp tv rr g).alarms
      ↔ 21 ≤ f ∧ f < 30) ∧
    (Msg.lowFio2Band ∈
        (evaluate_anesthesia_realistic pt w f fgf ag ap pp tv rr g).warnings
      ↔ 30 ≤ f ∧ f < 40) ∧
    (Msg.hypoxicGuardInhibit ∈
        (evaluate_anesthesia_realistic pt w f fgf ag ap pp tv rr g).alarms
      ↔ g = true ∧ f < 25) := by
  rw [evaluate_of_valid pt ag g h]
  refine ⟨?_, ?_, ?_, ?_⟩
  · simp [clinicalResult_alarms, mem_clinicalAlarms, mem_oxygenChain_fst,
      mem_guardAlarm, mem_fgfAgentChain, mem_agentChain_fst, mem_vtLowChain_fst,
      mem_vtHighChain_fst, mem_rrChain_fst, mem_mvChain_fst, mem_pressureChain_fst,
      mem_disconnectionAlarm]
  · simp [clinicalResult_alarms, mem_clinicalAlarms, mem_oxygenChain_fst,
      mem_guardAlarm, mem_fgfAgentChain, mem_agentChain_fst, mem_vtLowChain_fst,
      mem_vtHighChain_fst, mem_rrChain_fst, mem_mvChain_fst, mem_pressureChain_fst,
      mem_disconnectionAlarm, not_lt]
  · simp only [clinicalResult_warnings, mem_clinicalWarnings, mem_oxygenChain_snd,
      mem_slowWashInWarning, mem_highFGFWarning, mem_agentChain_snd,
      mem_vtLowChain_snd, mem_vtHighChain_snd, mem_rrChain_snd, mem_mvChain_snd,
      mem_pressureChain_snd, not_lt]
    simp only [reduceCtorEq, and_false, false_and, false_or, or_false, and_true]
    constructor
    · rintro ⟨-, h30, h40⟩
      exact ⟨h30, h40⟩
    · rintro ⟨h30, h40⟩
      exact ⟨by linarith, h30, h40⟩
  · simp [clinicalResult_alarms, mem_clinicalAlarms, mem_oxygenChain_fst,
      mem_guardAlarm, mem_fgfAgentChain, mem_agentChain_fst, mem_vtLowChain_fst,
      mem_vtHighChain_fst, mem_rrChain_fst, mem_mvChain_fst, mem_pressureChain_fst,
      mem_disconnectionAlarm]

theorem oxygen_rule_bands_and_guard_witness :
    Msg.hypoxicMixtureRisk ∈
      (evaluate_anesthesia_realistic "adult" 70 22 4 "Sevoflurane" 2 18 500 12 true).alarms ∧
    Msg.fio2NotPhysiological ∉
      (evaluate_anesthesia_realistic "adult" 70 22 4 "Sevoflurane" 2 18 500 12 true).alarms ∧
    (evaluate_anesthesia_realistic "adult" 70 22 4 "Sevoflurane" 2 18 500 12 true).status
      = Status.ALARM := by
  have h : validInput (70 : ℚ) 22 4 2 12 500 := by with_unfolding_all decide
  have hc := oxygen_rule_bands_and_guard "adult" "Sevoflurane" 18 true h
  refine ⟨hc.2.1.mpr (by norm_num), ?_, by with_unfolding_all decide⟩
  intro hmem
  have : (22 : ℚ) < 21 := hc.1.mp hmem
  norm_num at this

/-- C4: after validation, when the airway pressure is below 5 and the raw
minute ventilation is below the warn-low threshold of the patient type,
the possible-disconnection/leak alarm is present. -/
theorem disconnection_compound_rule (pt : String) {w f fgf : ℚ} (ag : String)
    {ap pp tv rr : ℚ} (g : Bool)
    (h : validInput w f fgf ap rr tv) (hp : pp < 5)
    (hmv : tv * rr / 1000 < (ventParams pt).2.2.2) :
    Msg.possibleDisconnectionLeak ∈
      (evaluate_anesthesia_realistic pt w f fgf ag ap pp tv rr g).alarms := by
  rw [evaluate_of_valid pt ag g h, clinicalResult_alarms]
  exact mem_clinicalAlarms.mpr (Or.inr (Or.inr (Or.inr (Or.inr (Or.inr (Or.inr
    (Or.inr (Or.inr (Or.inr (mem_disconnectionAlarm.mpr ⟨⟨hp, hmv⟩, rfl⟩))))))))))

theorem disconnection_compound_rule_witness :
    Msg.possibleDisconnectionLeak ∈
      (evaluate_anesthesia_realistic "adult" 70 50 4 "Sevoflurane" 2 3 200 6 true).alarms ∧
    Msg.lowMinuteVentilation (6/5) ∈
      (evaluate_anesthesia_realistic "adult" 70 50 4 "Sevoflurane" 2 3 200 6 true).alarms := by
  have h : validInput (70 : ℚ) 50 4 2 6 200 := by with_unfolding_all decide
  refine ⟨disconnection_compound_rule "adult" "Sevoflurane" true h (by norm_num) ?_,
    by with_unfolding_all decide⟩
  with_unfolding_all decide

/-- C5: after validation, the agent-concentration rule is mutually
exclusive: the per-agent ceiling alarm fires exactly when the
concentration exceeds the ceiling (default 5.0), and the high
concentration warning fires exactly when the ceiling is not exceeded but
the warn-high threshold (default 3.0) is. -/
theorem agent_concentration_rule_exclusive (pt : String) {w f fgf : ℚ}
    (ag : String) {ap : ℚ} (pp : ℚ) {tv rr : ℚ} (g : Bool)
    (h : validInput w f fgf ap rr tv) :
    (Msg.agentTooHigh ag (agent_alarm_max ag) ∈
        (evaluate_anesthesia_realistic pt w f fgf ag ap pp tv rr g).alarms
      ↔ ap > (agent_alarm_max ag).getD 5) ∧
    (Msg.agentHigh ag (agent_warn_high ag) ∈
        (evaluate_anesthesia_realistic pt w f fgf ag ap pp tv rr g).warnings
      ↔ ap ≤ (agent_alarm_max ag).getD 5 ∧ ap > (agent_warn_high ag).getD 3) := by
  rw [evaluate_of_valid pt ag g h]
  constructor
  · simp [clinicalResult_alarms, mem_clinicalAlarms, mem_oxygenChain_fst,
      mem_guardAlarm, mem_fgfAgentChain, mem_agentChain_fst, mem_vtLowChain_fst,
      mem_vtHighChain_fst, mem_rrChain_fst, mem_mvChain_fst, mem_pressureChain_fst,
      mem_disconnectionAlarm]
  · simp [clinicalResult_warnings, mem_clinicalWarnings, mem_oxygenChain_snd,
      mem_slowWashInWarning, mem_highFGFWarning, mem_agentChain_snd,
      mem_vtLowChain_snd, mem_vtHighChain_snd, mem_rrChain_snd, mem_mvChain_snd,
      mem_pressureChain_snd, not_lt, and_comm]

theorem agent_concentration_rule_exclusive_witness :
    Msg.agentTooHigh "Desflurane" (agent_alarm_max "Desflurane") ∈
      (evaluate_anesthesia_realistic "adult" 70 50 4 "Desflurane" 11 18 500 12 true).alarms ∧
    (evaluate_anesthesia_realistic "adult" 70 50 4 "Desflurane" 11 18 500 12 true).status
      = Status.ALARM := by
  have h : validInput (70 : ℚ) 50 4 11 12 500 := by with_unfolding_all decide
  refine ⟨(agent_concentration_rule_exclusive "adult" "Desflurane" 18 true h).1.mpr ?_,
    by with_unfolding_all decide⟩
  with_unfolding_all decide

/-- C7: after validation the respiratory-rate rule is monotone in its
bands: below 6 the apnea/bradypnea alarm fires, from 6 up to (excluding) 8
only the low-RR warning, between 8 and 35 nothing, and above 35 only the
high-RR warning. -/
theorem resp_rate_rule_bands (pt : String) {w f fgf : ℚ} (ag : String)
    {ap : ℚ} (pp : ℚ) {tv rr : ℚ} (g : Bool)
    (h : validInput w f fgf ap rr tv) :
    (Msg.apneaBradypnea ∈
        (evaluate_anesthesia_realistic pt w f fgf ag ap pp tv rr g).alarms ↔ rr < 6) ∧
    (Msg.lowRespRate ∈
        (evaluate_anesthesia_realistic pt w f fgf ag ap pp tv rr g).warnings
      ↔ 6 ≤ rr ∧ rr < 8) ∧
    (Msg.highRespRate ∈
        (evaluate_anesthesia_realistic pt w f fgf ag ap pp tv rr g).warnings
      ↔ 35 < rr) := by
  rw [evaluate_of_valid pt ag g h]
  refine ⟨?_, ?_, ?_⟩
  · simp [clinicalResult_alarms, mem_clinicalAlarms, mem_oxygenChain_fst,
      mem_guardAlarm, mem_fgfAgentChain, mem_agentChain_fst, mem_vtLowChain_fst,
      mem_vtHighChain_fst, mem_rrChain_fst, mem_mvChain_fst, mem_pressureChain_fst,
      mem_disconnectionAlarm]
  · simp [clinicalResult_warnings, mem_clinicalWarnings, mem_oxygenChain_snd,
      mem_slowWashInWarning, mem_highFGFWarning, mem_agentChain_snd,
      mem_vtLowChain_snd, mem_vtHighChain_snd, mem_rrChain_snd, mem_mvChain_snd,
      mem_pressureChain_snd, not_lt]
  · simp only [clinicalResult_warnings, mem_clinicalWarnings, mem_oxygenChain_snd,
      mem_slowWashInWarning, mem_highFGFWarning, mem_agentChain_snd,
      mem_vtLowChain_snd, mem_vtHighChain_snd, mem_rrChain_snd, mem_mvChain_snd,
      mem_pressureChain_snd, not_lt, reduceCtorEq, and_false, false_and,
      false_or, or_false, and_true]
    constructor
    · rintro ⟨-, -, h35⟩
      exact h35
    · intro h35
      exact ⟨by linarith, by linarith, h35⟩

theorem resp_rate_rule_bands_witness :
    Msg.apneaBradypnea ∈
      (evaluate_anesthesia_realistic "adult" 70 50 4 "Sevoflurane" 2 18 500 5 true).alarms ∧
    Msg.lowRespRate ∈
      (evaluate_anesthesia_realistic "adult" 70 50 4 "Sevoflurane" 2 18 500 7 true).warnings ∧
    Msg.apneaBradypnea ∉
      (evaluate_anesthesia_realistic "adult" 70 50 4 "Sevoflurane" 2 18 500 7 true).alarms ∧
    Msg.lowRespRate ∉
      (evaluate_anesthesia_realistic "adult" 70 50 4 "Sevoflurane" 2 18 500 9 true).warnings ∧
    Msg.highRespRate ∉
      (evaluate_anesthesia_realistic "adult" 70 50 4 "Sevoflurane" 2 18 500 9 true).warnings := by
  have h5 : validInput (70 : ℚ) 50 4 2 5 500 := by with_unfolding_all decide
  have h7 : validInput (70 : ℚ) 50 4 2 7 500 := by with_unfolding_all decide
  refine ⟨(resp_rate_rule_bands "adult" "Sevoflurane" 18 true h5).1.mpr (by norm_num),
    (resp_rate_rule_bands "adult" "Sevoflurane" 18 true h7).2.1.mpr (by norm_num),
    by with_unfolding_all decide, by with_unfolding_all decide,
    by with_unfolding_all decide⟩

/-- C8: after validation, an FGF in (0, 0.3] together with a positive
agent concentration produces both the FGF-too-low alarm and the
slow-wash-in warning in the same result, and the status is ALARM. -/
theorem fgf_overlap_alarm_and_warning (pt : String) {w f fgf : ℚ} (ag : String)
    {ap : ℚ} (pp : ℚ) {tv rr : ℚ} (g : Bool)
    (h : validInput w f fgf ap rr tv)
    (h0 : 0 < fgf) (h3 : fgf ≤ 3/10) (hap : 0 < ap) :
    Msg.fgfTooLowForAgent ∈
      (evaluate_anesthesia_realistic pt w f fgf ag ap pp tv rr g).alarms ∧
    Msg.slowWashIn ∈
      (evaluate_anesthesia_realistic pt w f fgf ag ap pp tv rr g).warnings ∧
    (evaluate_anesthesia_realistic pt w f fgf ag ap pp tv rr g).status
      = Status.ALARM := by
  have hmem : Msg.fgfTooLowForAgent ∈
      (evaluate_anesthesia_realistic pt w f fgf ag ap pp tv rr g).alarms := by
    rw [evaluate_of_valid pt ag g h, clinicalResult_alarms]
    refine mem_clinicalAlarms.mpr (Or.inr (Or.inr (Or.inl (mem_fgfAgentChain.mpr
      (Or.inr ⟨?_, ⟨h3, hap⟩, rfl⟩)))))
    rintro ⟨hz, -⟩
    exact absurd hz (ne_of_gt h0)
  refine ⟨hmem, ?_, ?_⟩
  · rw [evaluate_of_valid pt ag g h, clinicalResult_warnings]
    exact mem_clinicalWarnings.mpr (Or.inr (Or.inl (mem_slowWashInWarning.mpr
      ⟨by linarith, rfl⟩)))
  · rw [evaluate_status_ite pt w f fgf ag ap pp tv rr g,
      if_pos (List.ne_nil_of_mem hmem)]

theorem fgf_overlap_alarm_and_warning_witness :
    Msg.fgfTooLowForAgent ∈
      (evaluate_anesthesia_realistic "adult" 70 50 (1/4) "Sevoflurane" 2 18 500 12 true).alarms ∧
    Msg.slowWashIn ∈
      (evaluate_anesthesia_realistic "adult" 70 50 (1/4) "Sevoflurane" 2 18 500 12 true).warnings ∧
    (evaluate_anesthesia_realistic "adult" 70 50 (1/4) "Sevoflurane" 2 18 500 12 true).status
      = Status.ALARM := by
  have h : validInput (70 : ℚ) 50 (1/4) 2 12 500 := by with_unfolding_all decide
  exact fgf_overlap_alarm_and_warning "adult" "Sevoflurane" 18 true h
    (by norm_num) (by norm_num) (by norm_num)

/-- C9: when validation fails, the collected alarm messages appear in the
fixed check order weight, FiO2, fresh gas flow, agent concentration,
respiratory rate, tidal volume: the alarms list is always a sublist of
that canonical sequence. -/
theorem validation_messages_fixed_order (pt : String) {w f fgf : ℚ}
    (ag : String) {ap : ℚ} (pp : ℚ) {tv rr : ℚ} (g : Bool)
    (h : ¬ validInput w f fgf ap rr tv) :
    List.Sublist (evaluate_anesthesia_realistic pt w f fgf ag ap pp tv rr g).alarms
      [Msg.invalidWeight, Msg.invalidFio2, Msg.invalidFreshGasFlow,
       Msg.invalidAgentConcentration, Msg.invalidRespiratoryRate,
       Msg.invalidTidalVolume] := by
  rw [evaluate_of_invalid pt ag g h]
  show List.Sublist (validationAlarms w f fgf ap rr tv) _
  unfold validationAlarms
  split_ifs <;> decide

theorem validation_messages_fixed_order_witness :
    List.Sublist
      (evaluate_anesthesia_realistic "adult" (-1) 150 (-2) "Sevoflurane" (-3) 18 (-4) (-5) true).alarms
      [Msg.invalidWeight, Msg.invalidFio2, Msg.invalidFreshGasFlow,
       Msg.invalidAgentConcentration, Msg.invalidRespiratoryRate,
       Msg.invalidTidalVolume] :=
  validation_messages_fixed_order "adult" "Sevoflurane" 18 true
    (by with_unfolding_all decide)

/-- C10: whenever the evaluator reaches the ventilation computation
(i.e. computed is populated), the weight is strictly positive, so the
VT-per-kg division is by a positive number and the 0 fallback branch is
never taken: VT_mLkg always equals round2 of the true quotient. -/
theorem vt_per_kg_division_safe (pt : String) {w f fgf : ℚ} (ag : String)
    {ap pp tv rr : ℚ} (g : Bool)
    (h : (evaluate_anesthesia_realistic pt w f fgf ag ap pp tv rr g).computed ≠ none) :
    0 < w ∧
    (evaluate_anesthesia_realistic pt w f fgf ag ap pp tv rr g).computed =
      some { MV_Lmin := round2 (tv * rr / 1000),
             VT_mLkg := round2 (tv / w),
             VT_target_mLkg := ((ventParams pt).1, (ventParams pt).2.1) } := by
  by_cases hv : validInput w f fgf ap rr tv
  · have hw : 0 < w := not_le.mp hv.1
    refine ⟨hw, ?_⟩
    rw [evaluate_of_valid pt ag g hv, clinicalResult_computed]
    unfold computedValues
    simp [if_pos hw]
  · exact absurd (by rw [evaluate_of_invalid pt ag g hv]) h

theorem vt_per_kg_division_safe_witness :
    (0 : ℚ) < 70 ∧
    (evaluate_anesthesia_realistic "adult" 70 50 4 "Sevoflurane" 2 18 500 12 true).computed =
      some { MV_Lmin := round2 (500 * 12 / 1000),
             VT_mLkg := round2 (500 / 70),
             VT_target_mLkg := ((ventParams "adult").1, (ventParams "adult").2.1) } :=
  vt_per_kg_division_safe "adult" "Sevoflurane" true
    (by with_unfolding_all decide)
